import Mathlib

/-!
Shallow embedding of the authentication core of the `simple-swagger-backend`
repository: the in-memory user store (`src/models/User.js`, provided as
`src/unnamed/part_000`), the JWT token utilities (`src/utils/tokenUtils.js`),
the auth route handlers (`src/routes/auth/index.js`) and the authentication
middleware (`src/unnamed/part_002`).

Modelling conventions:
- A JWT string is modelled symbolically as `TokenStr.jwt userId key iat exp`:
  the HS256 encoding of a `{ userId }` payload signed with `key`, issued at
  `iat` seconds with expiry `exp` seconds.  Any string that is not such an
  encoding is `TokenStr.raw s`.  Equality of `TokenStr` models string
  equality of the encodings (the encoding is deterministic and injective).
- `jsonwebtoken`'s `jwt.verify` checks the signature before the expiry, so a
  wrong-key token raises `JsonWebTokenError` (not `TokenExpiredError`) even
  when it is also past its expiry; a good-signature token raises
  `TokenExpiredError` exactly when `clockTimestamp >= exp`.
- JavaScript truthiness of the request-body fields is modelled explicitly:
  a missing field is `Option.none`, and the empty string is falsy.
- `bcrypt.compare` is an opaque capability, passed as a function parameter
  `bcompare : String → String → Bool`.
- Time (`now`, in seconds) is an explicit parameter of every operation that
  the code derives from the wall clock.
-/

namespace SwaggerBackend

/-- A token string: either the deterministic JWT encoding of a `{ userId }`
payload under a signing key with issue/expiry times, or some other string. -/
inductive TokenStr where
  | jwt (userId : Nat) (key : String) (iat : Nat) (exp : Nat)
  | raw (s : String)
deriving DecidableEq, Repr

/-- A stored user record, `User` in `src/unnamed/part_000`:
`{id, username, email, password (bcrypt digest), refreshTokens}`. -/
structure User where
  id : Nat
  username : String
  email : String
  password : String
  refreshTokens : List TokenStr
deriving DecidableEq, Repr

/-- The public projection of a user returned by `User.create`, `getAll` and
attached to requests by the middleware: `{id, username, email}`. -/
structure PubUser where
  id : Nat
  username : String
  email : String
deriving DecidableEq, Repr

/-- The JWT configuration (`src/config/jwt.js`): secrets and expiry windows
for the access- and refresh-token classes. -/
structure Config where
  accessSecret : String
  refreshSecret : String
  accessTTL : Nat
  refreshTTL : Nat
deriving DecidableEq, Repr

/-- `User.findById`: first stored user whose `id` matches. -/
def findById : List User → Nat → Option User
  | [], _ => none
  | u :: rest, uid => if u.id = uid then some u else findById rest uid

/-- `User.findByCredentials`: first stored user whose `username` or `email`
equals the supplied string. -/
def findByCredentials : List User → String → Option User
  | [], _ => none
  | u :: rest, cred =>
      if u.username = cred ∨ u.email = cred then some u
      else findByCredentials rest cred

/-- Helper capturing the JS pattern `const user = findById(uid); if (user)
{ mutate user }`: rewrite the first user whose `id` matches, in place. -/
def updateFirstById : List User → Nat → (User → User) → List User
  | [], _, _ => []
  | u :: rest, uid, f =>
      if u.id = uid then f u :: rest else u :: updateFirstById rest uid f

/-- `User.addRefreshToken`: no-op if the user is absent; otherwise, if the
list already holds at least 5 tokens, `shift()` the oldest (front) entry,
then `push` the new token at the back. -/
def addRefreshToken (users : List User) (uid : Nat) (t : TokenStr) : List User :=
  updateFirstById users uid (fun u =>
    { u with refreshTokens :=
        (if u.refreshTokens.length ≥ 5 then u.refreshTokens.tail
         else u.refreshTokens) ++ [t] })

/-- `User.removeRefreshToken`: no-op if the user is absent; otherwise keep
exactly the stored tokens different from `t` (JS `filter(x => x !== t)`). -/
def removeRefreshToken (users : List User) (uid : Nat) (t : TokenStr) : List User :=
  updateFirstById users uid (fun u =>
    { u with refreshTokens := u.refreshTokens.filter (fun x => x ≠ t) })

/-- `User.hasRefreshToken`: membership of `t` in the user's list, `false`
when the user is absent. -/
def hasRefreshToken (users : List User) (uid : Nat) (t : TokenStr) : Bool :=
  match findById users uid with
  | some u => t ∈ u.refreshTokens
  | none => false

/-- `User.create`: fail with `User already exists` (store unchanged) when
some stored user has the same username or the same email; otherwise assign
id `users.length + 1` and push the new record.  The bcrypt digest of the
password is the opaque `hashed` argument. -/
def createUser (users : List User) (username email hashed : String) :
    Except String PubUser × List User :=
  if ∃ u ∈ users, u.username = username ∨ u.email = email then
    (Except.error "User already exists", users)
  else
    let id := users.length + 1
    (Except.ok ⟨id, username, email⟩,
     users ++ [⟨id, username, email, hashed, []⟩])

/-- Outcome of `jwt.verify`: a decoded `{ userId }` payload, a
`TokenExpiredError`, or any other failure (`JsonWebTokenError` etc.). -/
inductive JwtResult where
  | decoded (userId : Nat)
  | expiredErr
  | invalidErr
deriving DecidableEq, Repr

/-- `jwt.verify(token, secret)` at clock time `now`: signature first (a
non-JWT string or a wrong key is an unspecific failure), then the expiry
check `now ≥ exp`, then the decoded payload. -/
def jwtVerify : TokenStr → String → Nat → JwtResult
  | .raw _, _, _ => .invalidErr
  | .jwt uid key _ texp, secret, now =>
      if key = secret then
        if now ≥ texp then .expiredErr else .decoded uid
      else .invalidErr

/-- Result shape of `verifyAccessToken` / `verifyRefreshToken`:
`{ valid, expired, userId }`. -/
structure VerifyResult where
  valid : Bool
  expired : Bool
  userId : Option Nat
deriving DecidableEq, Repr

/-- `generateAccessToken(userId)`: sign `{ userId }` with the access secret,
expiring `accessTTL` after `now`. -/
def generateAccessToken (cfg : Config) (uid : Nat) (now : Nat) : TokenStr :=
  .jwt uid cfg.accessSecret now (now + cfg.accessTTL)

/-- The token minted by `generateRefreshToken` before it is stored. -/
def signRefreshToken (cfg : Config) (uid : Nat) (now : Nat) : TokenStr :=
  .jwt uid cfg.refreshSecret now (now + cfg.refreshTTL)

/-- `generateRefreshToken(userId)`: sign with the refresh secret and store
the token on the user's record via `User.addRefreshToken`. -/
def generateRefreshToken (cfg : Config) (users : List User) (uid : Nat)
    (now : Nat) : TokenStr × List User :=
  let t := signRefreshToken cfg uid now
  (t, addRefreshToken users uid t)

/-- `verifyAccessToken(token)`: wrap `jwt.verify` with the access secret;
the catch-branch reports `expired` exactly for `TokenExpiredError`. -/
def verifyAccessToken (cfg : Config) (t : TokenStr) (now : Nat) : VerifyResult :=
  match jwtVerify t cfg.accessSecret now with
  | .decoded uid => ⟨true, false, some uid⟩
  | .expiredErr => ⟨false, true, none⟩
  | .invalidErr => ⟨false, false, none⟩

/-- `verifyRefreshToken(token)`: `jwt.verify` with the refresh secret, then
an additional membership check `User.hasRefreshToken(decoded.userId, token)`;
a decoded token that is not stored yields `{valid: false, expired: false}`,
indistinguishable from the catch-branch of a malformed/wrong-key token. -/
def verifyRefreshToken (cfg : Config) (users : List User) (t : TokenStr)
    (now : Nat) : VerifyResult :=
  match jwtVerify t cfg.refreshSecret now with
  | .decoded uid =>
      if hasRefreshToken users uid t then ⟨true, false, some uid⟩
      else ⟨false, false, none⟩
  | .expiredErr => ⟨false, true, none⟩
  | .invalidErr => ⟨false, false, none⟩

/-- JSON response of the auth route handlers: HTTP status code, the
`status` string, and the optional `message` / `data` fields. -/
structure Response where
  statusCode : Nat
  status : String
  message : Option String
  accessToken : Option TokenStr
  refreshToken : Option TokenStr
  user : Option PubUser
deriving DecidableEq, Repr

/-- An error response `{status: "error", message}` with the given code. -/
def errResp (code : Nat) (msg : String) : Response :=
  ⟨code, "error", some msg, none, none, none⟩

/-- JS falsiness of a token-valued body field: missing, or the empty
string (a symbolic JWT encoding is never the empty string). -/
def tokenFalsy : Option TokenStr → Bool
  | none => true
  | some (.raw s) => s = ""
  | some (.jwt _ _ _ _) => false

/-- JS falsiness of a string-valued body field: missing or empty. -/
def strFalsy : Option String → Bool
  | none => true
  | some s => s = ""

/-- JS truthiness of the decoded `userId` (`null` and `0` are falsy). -/
def jsTruthy : Option Nat → Bool
  | none => false
  | some n => n ≠ 0

/-- `POST /api/auth/refresh-token` (src/routes/auth/index.js:353-395):
400 when the body token is falsy; else verify the refresh token; expired
→ 401 expired message; any other invalidity → 401 `Invalid refresh token`;
valid → 200 with a freshly signed access token.  The store is returned
unchanged: the handler performs no store mutation. -/
def refreshHandler (cfg : Config) (users : List User) (body : Option TokenStr)
    (now : Nat) : Response × List User :=
  match body with
  | none => (errResp 400 "Refresh token is required", users)
  | some t =>
      if tokenFalsy (some t) then (errResp 400 "Refresh token is required", users)
      else
        let r := verifyRefreshToken cfg users t now
        if r.valid then
          (⟨200, "success", none,
            some (generateAccessToken cfg (r.userId.getD 0) now), none, none⟩,
           users)
        else if r.expired then
          (errResp 401 "Refresh token has expired. Please login again.", users)
        else (errResp 401 "Invalid refresh token", users)

/-- The store mutation performed by the logout handler: verify the refresh
token and, only when `valid && userId` (JS truthiness of the decoded id),
remove the token from that user's record. -/
def logoutStore (cfg : Config) (users : List User) (t : TokenStr)
    (now : Nat) : List User :=
  let r := verifyRefreshToken cfg users t now
  if r.valid && jsTruthy r.userId then
    removeRefreshToken users (r.userId.getD 0) t
  else users

/-- `POST /api/auth/logout` (src/routes/auth/index.js:435-464): 400 when
the body token is falsy; else perform the conditional token removal and
always answer 200 `Logged out successfully`. -/
def logoutHandler (cfg : Config) (users : List User) (body : Option TokenStr)
    (now : Nat) : Response × List User :=
  match body with
  | none => (errResp 400 "Refresh token is required", users)
  | some t =>
      if tokenFalsy (some t) then (errResp 400 "Refresh token is required", users)
      else
        (⟨200, "success", some "Logged out successfully", none, none, none⟩,
         logoutStore cfg users t now)

/-- `POST /api/auth/login` (src/routes/auth/index.js:246-302): 400 when a
credential field is falsy; unknown user → 401 `Invalid credentials`; wrong
password (`bcrypt.compare` false) → the same 401 `Invalid credentials`;
else mint an access token and a refresh token (storing the latter) and
answer 200 with both and the public user view. -/
def loginHandler (cfg : Config) (bcompare : String → String → Bool)
    (users : List User) (cred pw : Option String) (now : Nat) :
    Response × List User :=
  if strFalsy cred || strFalsy pw then
    (errResp 400 "Please provide username/email and password", users)
  else
    match findByCredentials users (cred.getD "") with
    | none => (errResp 401 "Invalid credentials", users)
    | some u =>
        if bcompare (pw.getD "") u.password then
          let access := generateAccessToken cfg u.id now
          let rt := generateRefreshToken cfg users u.id now
          (⟨200, "success", some "Login successful", some access,
            some rt.1, some ⟨u.id, u.username, u.email⟩⟩, rt.2)
        else (errResp 401 "Invalid credentials", users)

/-- The `Authorization` request header, already split along the bearer
convention of the middleware: absent; present but not starting with
`Bearer ` (malformed); or `Bearer <t>` carrying the token `t` (the
middleware's `authHeader.split(' ')[1]`). -/
inductive Header where
  | missing
  | notBearer (s : String)
  | bearer (t : TokenStr)
deriving DecidableEq, Repr

/-- Terminal outcome of the `authenticate` middleware: a 401 rejection
with its message, or the authenticated `req.user` projection. -/
inductive AuthOutcome where
  | rejected (statusCode : Nat) (message : String)
  | authenticated (u : PubUser)
deriving DecidableEq, Repr

/-- The `authenticate` middleware (src/unnamed/part_002): missing or
non-bearer header → `No token provided`; else verify the access token
(expired → its own message, other invalid → `Invalid token.`); else resolve
the user by id (absent → `User not found.`); else attach
`{id, username, email}`. -/
def authenticate (cfg : Config) (users : List User) (h : Header) (now : Nat) :
    AuthOutcome :=
  match h with
  | .missing => .rejected 401 "Authentication required. No token provided."
  | .notBearer _ => .rejected 401 "Authentication required. No token provided."
  | .bearer t =>
      let r := verifyAccessToken cfg t now
      if r.valid then
        match findById users (r.userId.getD 0) with
        | none => .rejected 401 "User not found."
        | some u => .authenticated ⟨u.id, u.username, u.email⟩
      else if r.expired then
        .rejected 401 "Token has expired. Please refresh your token."
      else .rejected 401 "Invalid token."

/-- A store mutation of the credential store, as performed by the code:
user creation and the two refresh-token mutators. -/
inductive StoreOp where
  | create (username email hashed : String)
  | addTok (uid : Nat) (t : TokenStr)
  | removeTok (uid : Nat) (t : TokenStr)
deriving DecidableEq, Repr

/-- Apply one store operation (a failed `create` leaves the store as is). -/
def applyOp (users : List User) : StoreOp → List User
  | .create un em h => (createUser users un em h).2
  | .addTok uid t => addRefreshToken users uid t
  | .removeTok uid t => removeRefreshToken users uid t

/-- Run a sequence of store operations from the empty initial store. -/
def applyOps (ops : List StoreOp) : List User :=
  ops.foldl applyOp []

/-- The uniqueness invariant of the store: no two users share a username,
and no two users share an email. -/
def UniqUsers (users : List User) : Prop :=
  users.Pairwise (fun a b => a.username ≠ b.username ∧ a.email ≠ b.email)

/-! ### Lemmas about the store primitives -/

theorem updateFirstById_of_not_found {users : List User} {uid : Nat}
    (f : User → User) (h : findById users uid = none) :
    updateFirstById users uid f = users := by
  induction users with
  | nil => rfl
  | cons u rest ih =>
      by_cases hu : u.id = uid
      · simp [findById, hu] at h
      · simp only [findById, hu, if_false, if_neg hu] at h ⊢
        simp [updateFirstById, hu, ih h]

theorem updateFirstById_of_fix {users : List User} {uid : Nat} {u : User}
    (f : User → User) (h : findById users uid = some u) (hfix : f u = u) :
    updateFirstById users uid f = users := by
  induction users with
  | nil => simp [findById] at h
  | cons v rest ih =>
      by_cases hv : v.id = uid
      · simp only [findById, if_pos hv, Option.some.injEq] at h
        subst h
        simp [updateFirstById, hv, hfix]
      · simp only [findById, if_neg hv] at h
        simp [updateFirstById, hv, ih h]

theorem findById_updateFirstById {users : List User} {uid : Nat}
    (f : User → User) (hf : ∀ v, (f v).id = v.id) :
    findById (updateFirstById users uid f) uid = (findById users uid).map f := by
  induction users with
  | nil => rfl
  | cons u rest ih =>
      by_cases hu : u.id = uid
      · simp [updateFirstById, findById, hu, hf]
      · simp [updateFirstById, findById, hu, ih]

theorem findById_updateFirstById_ne {users : List User} {uid v : Nat}
    (f : User → User) (hne : v ≠ uid) (hf : ∀ w, (f w).id = w.id) :
    findById (updateFirstById users uid f) v = findById users v := by
  induction users with
  | nil => rfl
  | cons u rest ih =>
      by_cases hu : u.id = uid
      · have h1 : ¬ (f u).id = v := by rw [hf u, hu]; exact fun hh => hne hh.symm
        have h2 : ¬ uid = v := fun hh => hne hh.symm
        simp [updateFirstById, findById, hu, h1, h2]
      · simp [updateFirstById, findById, hu, ih]

theorem mem_updateFirstById {users : List User} {uid : Nat} {f : User → User}
    {x : User} (hx : x ∈ updateFirstById users uid f) :
    x ∈ users ∨ ∃ w ∈ users, x = f w := by
  induction users with
  | nil => simp [updateFirstById] at hx
  | cons u rest ih =>
      by_cases hu : u.id = uid
      · simp only [updateFirstById, if_pos hu, List.mem_cons] at hx
        rcases hx with rfl | hx
        · exact Or.inr ⟨u, by simp⟩
        · exact Or.inl (by simp [hx])
      · simp only [updateFirstById, if_neg hu, List.mem_cons] at hx
        rcases hx with rfl | hx
        · exact Or.inl (by simp)
        · rcases ih hx with h | ⟨w, hw, rfl⟩
          · exact Or.inl (by simp [h])
          · exact Or.inr ⟨w, by simp [hw]⟩

theorem pairwise_updateFirstById {R : User → User → Prop} (f : User → User)
    (hfl : ∀ a b, R a b → R (f a) b) (hfr : ∀ a b, R a b → R a (f b)) :
    ∀ (users : List User) (uid : Nat),
      users.Pairwise R → (updateFirstById users uid f).Pairwise R := by
  intro users
  induction users with
  | nil => intro uid _; exact List.Pairwise.nil
  | cons u rest ih =>
      intro uid hp
      rcases List.pairwise_cons.mp hp with ⟨hhead, htail⟩
      by_cases hu : u.id = uid
      · simp only [updateFirstById, if_pos hu]
        exact List.pairwise_cons.mpr ⟨fun b hb => hfl u b (hhead b hb), htail⟩
      · simp only [updateFirstById, if_neg hu]
        refine List.pairwise_cons.mpr ⟨fun b hb => ?_, ih uid htail⟩
        rcases mem_updateFirstById hb with h | ⟨w, hw, rfl⟩
        · exact hhead b h
        · exact hfr u w (hhead w hw)

theorem findByCredentials_mem {users : List User} {c : String} {u : User}
    (h : findByCredentials users c = some u) : u ∈ users := by
  induction users with
  | nil => simp [findByCredentials] at h
  | cons v rest ih =>
      by_cases hv : v.username = c ∨ v.email = c
      · simp only [findByCredentials, if_pos hv, Option.some.injEq] at h
        simp [h]
      · simp only [findByCredentials, if_neg hv] at h
        simp [ih h]

theorem findById_isSome_of_mem {users : List User} {u : User}
    (h : u ∈ users) : (findById users u.id).isSome := by
  induction users with
  | nil => simp at h
  | cons v rest ih =>
      by_cases hv : v.id = u.id
      · simp [findById, hv]
      · rcases List.mem_cons.mp h with rfl | h2
        · exact absurd rfl hv
        · simpa [findById, hv] using ih h2

theorem hasRefreshToken_remove_self (users : List User) (uid : Nat)
    (t : TokenStr) :
    hasRefreshToken (removeRefreshToken users uid t) uid t = false := by
  unfold hasRefreshToken removeRefreshToken
  rw [findById_updateFirstById
    (fun u => { u with refreshTokens := u.refreshTokens.filter (fun x => x ≠ t) })
    (fun _ => rfl)]
  cases h : findById users uid with
  | none => rfl
  | some u => simp [List.mem_filter]

theorem logoutHandler_some {cfg : Config} {users : List User} {t : TokenStr}
    {now : Nat} (ht : tokenFalsy (some t) = false) :
    logoutHandler cfg users (some t) now =
      (⟨200, "success", some "Logged out successfully", none, none, none⟩,
       logoutStore cfg users t now) := by
  simp [logoutHandler, ht]

theorem hasRefreshToken_logoutStore {cfg : Config} {users : List User}
    {t : TokenStr} {uid now : Nat}
    (hdec : jwtVerify t cfg.refreshSecret now = .decoded uid)
    (h0 : uid ≠ 0) :
    hasRefreshToken (logoutStore cfg users t now) uid t = false := by
  unfold logoutStore verifyRefreshToken
  rw [hdec]
  cases hmem : hasRefreshToken users uid t with
  | true => simp [hmem, jsTruthy, h0, hasRefreshToken_remove_self]
  | false => simp [hmem]

theorem logoutStore_idem (cfg : Config) (users : List User) (t : TokenStr)
    (now : Nat) :
    logoutStore cfg (logoutStore cfg users t now) t now =
      logoutStore cfg users t now := by
  cases hv : jwtVerify t cfg.refreshSecret now with
  | invalidErr => simp [logoutStore, verifyRefreshToken, hv]
  | expiredErr => simp [logoutStore, verifyRefreshToken, hv]
  | decoded uid =>
      cases hmem : hasRefreshToken users uid t with
      | false => simp [logoutStore, verifyRefreshToken, hv, hmem]
      | true =>
          by_cases h0 : uid = 0
          · subst h0
            simp [logoutStore, verifyRefreshToken, hv, hmem, jsTruthy]
          · simp [logoutStore, verifyRefreshToken, hv, hmem, jsTruthy, h0,
              hasRefreshToken_remove_self]

/-- The bounded-retention invariant is preserved by every store operation. -/
theorem tokBound_applyOp {users : List User}
    (h : ∀ u ∈ users, u.refreshTokens.length ≤ 5) (op : StoreOp) :
    ∀ u ∈ applyOp users op, u.refreshTokens.length ≤ 5 := by
  cases op with
  | create un em hs =>
      intro u hu
      simp only [applyOp, createUser, apply_ite Prod.snd] at hu
      split at hu
      · exact h u hu
      · simp only [List.mem_append, List.mem_singleton] at hu
        rcases hu with hu | rfl
        · exact h u hu
        · simp
  | addTok uid t =>
      intro u hu
      unfold applyOp addRefreshToken at hu
      rcases mem_updateFirstById hu with hm | ⟨w, hw, rfl⟩
      · exact h u hm
      · have hw5 := h w hw
        by_cases hlen : w.refreshTokens.length ≥ 5
        · simp only [if_pos hlen, List.length_append, List.length_tail,
            List.length_singleton]
          omega
        · simp only [if_neg hlen, List.length_append, List.length_singleton]
          omega
  | removeTok uid t =>
      intro u hu
      unfold applyOp removeRefreshToken at hu
      rcases mem_updateFirstById hu with hm | ⟨w, hw, rfl⟩
      · exact h u hm
      · exact le_trans (List.length_filter_le _ _) (h w hw)

/-- The bounded-retention invariant holds of every store reachable by a
sequence of operations from the empty store. -/
theorem tokBound_applyOps (ops : List StoreOp) :
    ∀ u ∈ applyOps ops, u.refreshTokens.length ≤ 5 := by
  have key : ∀ (ops2 : List StoreOp) (init : List User),
      (∀ u ∈ init, u.refreshTokens.length ≤ 5) →
      ∀ u ∈ ops2.foldl applyOp init, u.refreshTokens.length ≤ 5 := by
    intro ops2
    induction ops2 with
    | nil => intro init h; simpa using h
    | cons op rest ih =>
        intro init h
        exact ih (applyOp init op) (tokBound_applyOp h op)
  exact key ops [] (by simp)

/-! ### Concrete sample data for witnesses and counterexamples -/

/-- A sample JWT configuration with distinct signing keys. -/
def cfg0 : Config := ⟨"access-secret", "refresh-secret", 900, 604800⟩

/-- A sample stored user holding no refresh tokens. -/
def alice : User := ⟨1, "alice", "alice@example.com", "alice-digest", []⟩

/-- A refresh-key-signed token for subject 1, issued at 0, expiring at 100. -/
def tokR1 : TokenStr := .jwt 1 "refresh-secret" 0 100

/-- The sample user with `tokR1` registered as a live refresh token. -/
def aliceSession : User :=
  ⟨1, "alice", "alice@example.com", "alice-digest",
   [TokenStr.jwt 1 "refresh-secret" 0 100]⟩

/-- A sample stored user whose refresh-token list is at capacity 5. -/
def bobFull : User :=
  ⟨2, "bob", "bob@example.com", "bob-digest",
   [.raw "t1", .raw "t2", .raw "t3", .raw "t4", .raw "t5"]⟩

/-! ### Claim theorems -/

/-- C2: over every sequence of store operations from the empty store, a
user's `refreshTokens` list never exceeds length 5; `addRefreshToken` is a
no-op when no user has the id, and otherwise appends the token, first
evicting the oldest (front) entry exactly when the list is at capacity 5. -/
theorem refreshTokens_bounded_and_fifo :
    (∀ ops : List StoreOp, ∀ u ∈ applyOps ops, u.refreshTokens.length ≤ 5)
    ∧ (∀ (users : List User) (uid : Nat) (t : TokenStr),
        findById users uid = none → addRefreshToken users uid t = users)
    ∧ (∀ (users : List User) (uid : Nat) (t : TokenStr) (u : User),
        findById users uid = some u → u.refreshTokens.length < 5 →
        findById (addRefreshToken users uid t) uid =
          some { u with refreshTokens := u.refreshTokens ++ [t] })
    ∧ (∀ (users : List User) (uid : Nat) (t : TokenStr) (u : User),
        findById users uid = some u → u.refreshTokens.length = 5 →
        findById (addRefreshToken users uid t) uid =
          some { u with refreshTokens := u.refreshTokens.tail ++ [t] }) := by
  refine ⟨tokBound_applyOps, ?_, ?_, ?_⟩
  · intro users uid t h
    exact updateFirstById_of_not_found _ h
  · intro users uid t u h hlt
    unfold addRefreshToken
    rw [findById_updateFirstById
      (fun u => { u with refreshTokens :=
        (if u.refreshTokens.length ≥ 5 then u.refreshTokens.tail
         else u.refreshTokens) ++ [t] }) (fun _ => rfl), h]
    have hn : ¬ u.refreshTokens.length ≥ 5 := by omega
    simp [hn]
  · intro users uid t u h hlen
    unfold addRefreshToken
    rw [findById_updateFirstById
      (fun u => { u with refreshTokens :=
        (if u.refreshTokens.length ≥ 5 then u.refreshTokens.tail
         else u.refreshTokens) ++ [t] }) (fun _ => rfl), h]
    have hy : u.refreshTokens.length ≥ 5 := by omega
    simp [hy]

/-- Witness for C2 at concrete inputs: absent user, a user below capacity,
and a user at capacity 5. -/
theorem refreshTokens_bounded_and_fifo_witness :
    addRefreshToken [] 1 (.raw "x") = []
    ∧ findById (addRefreshToken [alice] 1 (.raw "x")) 1 =
        some { alice with refreshTokens := alice.refreshTokens ++ [.raw "x"] }
    ∧ findById (addRefreshToken [bobFull] 2 (.raw "t6")) 2 =
        some { bobFull with
          refreshTokens := bobFull.refreshTokens.tail ++ [.raw "t6"] } :=
  ⟨refreshTokens_bounded_and_fifo.2.1 [] 1 (.raw "x") rfl,
   refreshTokens_bounded_and_fifo.2.2.1 [alice] 1 (.raw "x") alice
     (by decide) (by decide),
   refreshTokens_bounded_and_fifo.2.2.2 [bobFull] 2 (.raw "t6") bobFull
     (by decide) (by decide)⟩

/-- C9: `removeRefreshToken` is a no-op when the user is absent or the token
is not in the user's list; otherwise it removes every occurrence equal to
the token, keeps every other entry with its multiplicity and relative order
(sublist), leaves every other field of the user unchanged, and leaves every
other user unchanged. -/
theorem removeRefreshToken_spec :
    (∀ (users : List User) (uid : Nat) (t : TokenStr),
        findById users uid = none → removeRefreshToken users uid t = users)
    ∧ (∀ (users : List User) (uid : Nat) (t : TokenStr) (u : User),
        findById users uid = some u → t ∉ u.refreshTokens →
        removeRefreshToken users uid t = users)
    ∧ (∀ (users : List User) (uid : Nat) (t : TokenStr) (u : User),
        findById users uid = some u →
        ∃ u2, findById (removeRefreshToken users uid t) uid = some u2
          ∧ u2.id = u.id ∧ u2.username = u.username ∧ u2.email = u.email
          ∧ u2.password = u.password
          ∧ t ∉ u2.refreshTokens
          ∧ u2.refreshTokens.Sublist u.refreshTokens
          ∧ ∀ s, s ≠ t →
              u2.refreshTokens.count s = u.refreshTokens.count s)
    ∧ (∀ (users : List User) (uid v : Nat) (t : TokenStr), v ≠ uid →
        findById (removeRefreshToken users uid t) v = findById users v) := by
  refine ⟨?_, ?_, ?_, ?_⟩
  · intro users uid t h
    exact updateFirstById_of_not_found _ h
  · intro users uid t u h habs
    have hfix : u.refreshTokens.filter (fun x => x ≠ t) = u.refreshTokens := by
      apply List.filter_eq_self.mpr
      intro a ha
      simp only [decide_eq_true_eq]
      exact fun hat => habs (hat ▸ ha)
    exact updateFirstById_of_fix _ h (by rw [hfix])
  · intro users uid t u h
    refine ⟨{ u with refreshTokens := u.refreshTokens.filter (fun x => x ≠ t) },
      ?_, rfl, rfl, rfl, rfl, ?_, List.filter_sublist _, ?_⟩
    · unfold removeRefreshToken
      rw [findById_updateFirstById
        (fun u => { u with refreshTokens :=
          u.refreshTokens.filter (fun x => x ≠ t) }) (fun _ => rfl), h]
      rfl
    · simp [List.mem_filter]
    · intro s hst
      exact List.count_filter (by simpa using hst)
  · intro users uid v t hne
    exact findById_updateFirstById_ne _ hne (fun _ => rfl)

/-- Witness for C9 at concrete inputs: absent user, token not stored, a
stored token actually removed, and an unrelated user id left unchanged. -/
theorem removeRefreshToken_spec_witness :
    removeRefreshToken [alice] 7 tokR1 = [alice]
    ∧ removeRefreshToken [alice] 1 tokR1 = [alice]
    ∧ (∃ u2, findById (removeRefreshToken [aliceSession] 1 tokR1) 1 = some u2
        ∧ u2.id = aliceSession.id ∧ u2.username = aliceSession.username
        ∧ u2.email = aliceSession.email ∧ u2.password = aliceSession.password
        ∧ tokR1 ∉ u2.refreshTokens
        ∧ u2.refreshTokens.Sublist aliceSession.refreshTokens
        ∧ ∀ s, s ≠ tokR1 →
            u2.refreshTokens.count s = aliceSession.refreshTokens.count s)
    ∧ findById (removeRefreshToken [aliceSession] 1 tokR1) 2 =
        findById [aliceSession] 2 :=
  ⟨removeRefreshToken_spec.1 [alice] 7 tokR1 (by decide),
   removeRefreshToken_spec.2.1 [alice] 1 tokR1 alice (by decide) (by decide),
   removeRefreshToken_spec.2.2.1 [aliceSession] 1 tokR1 aliceSession
     (by decide),
   removeRefreshToken_spec.2.2.2 [aliceSession] 1 2 tokR1 (by decide)⟩

/-- C10: a missing or empty `refreshToken` body field makes the refresh
handler and the logout handler answer 400 `Refresh token is required` — an
error response, not success — and leave the store unchanged. -/
theorem missing_or_empty_token_yields_400 (cfg : Config) (users : List User)
    (now : Nat) :
    refreshHandler cfg users none now =
      (errResp 400 "Refresh token is required", users)
    ∧ refreshHandler cfg users (some (.raw "")) now =
      (errResp 400 "Refresh token is required", users)
    ∧ logoutHandler cfg users none now =
      (errResp 400 "Refresh token is required", users)
    ∧ logoutHandler cfg users (some (.raw "")) now =
      (errResp 400 "Refresh token is required", users)
    ∧ (errResp 400 "Refresh token is required").status ≠ "success"
    ∧ (errResp 400 "Refresh token is required").statusCode = 400 := by
  refine ⟨rfl, ?_, rfl, ?_, by decide, rfl⟩
  · simp [refreshHandler, tokenFalsy]
  · simp [logoutHandler, tokenFalsy]

/-- C3: with distinct signing keys, an access token verified against the
refresh key yields the Invalid verification result (valid and expired both
false), and a refresh token verified against the access key does so too. -/
theorem key_separation (cfg : Config) (users : List User)
    (uid uid2 tSign tSign2 now now2 : Nat)
    (hk : cfg.accessSecret ≠ cfg.refreshSecret) :
    verifyRefreshToken cfg users (generateAccessToken cfg uid tSign) now =
      ⟨false, false, none⟩
    ∧ verifyAccessToken cfg (signRefreshToken cfg uid2 tSign2) now2 =
      ⟨false, false, none⟩ := by
  constructor
  · simp [verifyRefreshToken, generateAccessToken, jwtVerify, hk]
  · simp [verifyAccessToken, signRefreshToken, jwtVerify, Ne.symm hk]

/-- Witness for C3 with the sample configuration. -/
theorem key_separation_witness :
    verifyRefreshToken cfg0 [alice] (generateAccessToken cfg0 1 0) 10 =
      ⟨false, false, none⟩
    ∧ verifyAccessToken cfg0 (signRefreshToken cfg0 2 0) 10 =
      ⟨false, false, none⟩ :=
  key_separation cfg0 [alice] 1 2 0 0 10 10 (by decide)

/-- C8: the auth middleware is the ordered single-pass gate: no or
malformed bearer header → no-token rejection; expired access token →
expired rejection; any other verification failure → invalid rejection;
unresolved subject id → user-not-found rejection; otherwise authenticated
with exactly the resolved user's id, username and email. -/
theorem authenticate_state_machine (cfg : Config) (users : List User)
    (now : Nat) :
    (authenticate cfg users .missing now =
        .rejected 401 "Authentication required. No token provided.")
    ∧ (∀ s, authenticate cfg users (.notBearer s) now =
        .rejected 401 "Authentication required. No token provided.")
    ∧ (∀ t, jwtVerify t cfg.accessSecret now = .expiredErr →
        authenticate cfg users (.bearer t) now =
          .rejected 401 "Token has expired. Please refresh your token.")
    ∧ (∀ t, jwtVerify t cfg.accessSecret now = .invalidErr →
        authenticate cfg users (.bearer t) now =
          .rejected 401 "Invalid token.")
    ∧ (∀ t uid, jwtVerify t cfg.accessSecret now = .decoded uid →
        findById users uid = none →
        authenticate cfg users (.bearer t) now =
          .rejected 401 "User not found.")
    ∧ (∀ t uid u, jwtVerify t cfg.accessSecret now = .decoded uid →
        findById users uid = some u →
        authenticate cfg users (.bearer t) now =
          .authenticated ⟨u.id, u.username, u.email⟩) := by
  refine ⟨rfl, fun s => rfl, ?_, ?_, ?_, ?_⟩
  · intro t h
    simp [authenticate, verifyAccessToken, h]
  · intro t h
    simp [authenticate, verifyAccessToken, h]
  · intro t uid h hnone
    simp [authenticate, verifyAccessToken, h, hnone]
  · intro t uid u h hsome
    simp [authenticate, verifyAccessToken, h, hsome]

/-- Witness for C8: each terminal state of the gate reached at a concrete
header, token, store and time. -/
theorem authenticate_state_machine_witness :
    authenticate cfg0 [alice] (.bearer (.jwt 1 "access-secret" 0 5)) 10 =
      .rejected 401 "Token has expired. Please refresh your token."
    ∧ authenticate cfg0 [alice] (.bearer (.raw "nonsense")) 10 =
      .rejected 401 "Invalid token."
    ∧ authenticate cfg0 [alice] (.bearer (.jwt 9 "access-secret" 0 100)) 10 =
      .rejected 401 "User not found."
    ∧ authenticate cfg0 [alice] (.bearer (.jwt 1 "access-secret" 0 100)) 10 =
      .authenticated ⟨1, "alice", "alice@example.com"⟩ :=
  ⟨(authenticate_state_machine cfg0 [alice] 10).2.2.1 _ (by decide),
   (authenticate_state_machine cfg0 [alice] 10).2.2.2.1 _ (by decide),
   (authenticate_state_machine cfg0 [alice] 10).2.2.2.2.1 _ 9
     (by decide) (by decide),
   (authenticate_state_machine cfg0 [alice] 10).2.2.2.2.2 _ 1 alice
     (by decide) (by decide)⟩

/-- C6: a login attempt naming no stored user and a login attempt naming a
stored user with a wrong password produce the identical failure: the same
401 `Invalid credentials` response, with the store unchanged in both. -/
theorem login_indistinguishable_failures (cfg : Config)
    (bcompare : String → String → Bool) (users : List User)
    (cred1 pw1 cred2 pw2 : String) (u : User) (now1 now2 : Nat)
    (h1 : cred1 ≠ "") (h2 : pw1 ≠ "") (h3 : cred2 ≠ "") (h4 : pw2 ≠ "")
    (habs : findByCredentials users cred1 = none)
    (hfound : findByCredentials users cred2 = some u)
    (hwrong : bcompare pw2 u.password = false) :
    loginHandler cfg bcompare users (some cred1) (some pw1) now1 =
      (errResp 401 "Invalid credentials", users)
    ∧ loginHandler cfg bcompare users (some cred2) (some pw2) now2 =
      (errResp 401 "Invalid credentials", users) := by
  constructor
  · simp [loginHandler, strFalsy, h1, h2, habs]
  · simp [loginHandler, strFalsy, h3, h4, hfound, hwrong]

/-- Witness for C6: unknown user `bob` and known user `alice` with a wrong
password fail with the same response against the sample store. -/
theorem login_indistinguishable_failures_witness :
    loginHandler cfg0 (fun p d => p == d) [alice] (some "bob") (some "pw") 0 =
      (errResp 401 "Invalid credentials", [alice])
    ∧ loginHandler cfg0 (fun p d => p == d) [alice]
        (some "alice") (some "wrong") 0 =
      (errResp 401 "Invalid credentials", [alice]) :=
  login_indistinguishable_failures cfg0 (fun p d => p == d) [alice]
    "bob" "pw" "alice" "wrong" alice 0 0
    (by decide) (by decide) (by decide) (by decide)
    (by decide) (by decide) (by decide)

/-- The username/email uniqueness invariant is preserved by every store
operation. -/
theorem uniq_applyOp {users : List User} (h : UniqUsers users)
    (op : StoreOp) : UniqUsers (applyOp users op) := by
  cases op with
  | create un em hs =>
      simp only [applyOp, createUser, apply_ite Prod.snd]
      split
      · exact h
      · next hd =>
          refine List.pairwise_append.mpr ⟨h, List.pairwise_singleton _ _, ?_⟩
          intro a ha b hb
          simp only [List.mem_singleton] at hb
          subst hb
          have h2 : ¬ (a.username = un ∨ a.email = em) :=
            fun hor => hd ⟨a, ha, hor⟩
          exact ⟨fun hu2 => h2 (Or.inl hu2), fun he2 => h2 (Or.inr he2)⟩
  | addTok uid t =>
      simp only [applyOp, addRefreshToken]
      exact pairwise_updateFirstById
        (fun u => { u with refreshTokens :=
          (if u.refreshTokens.length ≥ 5 then u.refreshTokens.tail
           else u.refreshTokens) ++ [t] })
        (fun a b hab => hab) (fun a b hab => hab) users uid h
  | removeTok uid t =>
      simp only [applyOp, removeRefreshToken]
      exact pairwise_updateFirstById
        (fun u => { u with refreshTokens :=
          u.refreshTokens.filter (fun x => x ≠ t) })
        (fun a b hab => hab) (fun a b hab => hab) users uid h

/-- C7: registration with the username of an existing user or the email of
an existing user fails with `User already exists` whatever the other fields
are, leaving the store unchanged; consequently no two stored users of any
reachable store share a username or an email. -/
theorem register_duplicate_and_uniqueness :
    (∀ (users : List User) (un em hs : String),
        ((∃ u ∈ users, u.username = un) ∨ (∃ u ∈ users, u.email = em)) →
        createUser users un em hs =
          (Except.error "User already exists", users))
    ∧ (∀ ops : List StoreOp, UniqUsers (applyOps ops)) := by
  constructor
  · intro users un em hs hd
    have hex : ∃ u ∈ users, u.username = un ∨ u.email = em := by
      rcases hd with ⟨u, hu, he⟩ | ⟨u, hu, he⟩
      · exact ⟨u, hu, Or.inl he⟩
      · exact ⟨u, hu, Or.inr he⟩
    simp only [createUser, if_pos hex]
  · intro ops
    have key : ∀ (ops2 : List StoreOp) (init : List User), UniqUsers init →
        UniqUsers (ops2.foldl applyOp init) := by
      intro ops2
      induction ops2 with
      | nil => intro init h; simpa [UniqUsers] using h
      | cons op rest ih => intro init h; exact ih _ (uniq_applyOp h op)
    exact key ops [] List.Pairwise.nil

/-- Witness for C7: registering a second `alice` with a fresh email fails
and leaves the sample store unchanged. -/
theorem register_duplicate_and_uniqueness_witness :
    createUser [alice] "alice" "new@example.com" "digest2" =
      (Except.error "User already exists", [alice]) :=
  register_duplicate_and_uniqueness.1 [alice] "alice" "new@example.com"
    "digest2" (Or.inl ⟨alice, by decide, by decide⟩)

/-- C5 counterexample: the empty string is a supplied refresh-token string,
yet logout answers a 400 error rather than success. -/
theorem logout_empty_string_counterexample :
    (logoutHandler cfg0 [alice] (some (.raw "")) 0).1 =
      errResp 400 "Refresh token is required"
    ∧ (logoutHandler cfg0 [alice] (some (.raw "")) 0).1.status ≠ "success"
    ∧ (logoutHandler cfg0 [alice] (some (.raw "")) 0).1.statusCode ≠ 200 := by
  decide

/-- C5 (amended): for every nonempty supplied token string, logout answers
200 success whatever the token is; when the token decodes under the refresh
key to a nonzero subject id, that token is absent from the subject's stored
list afterwards; and an identical second logout returns the same success
response and leaves the store exactly as the first did (idempotence). -/
theorem logout_success_removal_idempotent (cfg : Config) (users : List User)
    (t : TokenStr) (now : Nat) (ht : tokenFalsy (some t) = false) :
    (logoutHandler cfg users (some t) now).1 =
      ⟨200, "success", some "Logged out successfully", none, none, none⟩
    ∧ (∀ uid, jwtVerify t cfg.refreshSecret now = .decoded uid → uid ≠ 0 →
        hasRefreshToken (logoutHandler cfg users (some t) now).2 uid t = false)
    ∧ logoutHandler cfg (logoutHandler cfg users (some t) now).2
        (some t) now =
      logoutHandler cfg users (some t) now := by
  refine ⟨?_, ?_, ?_⟩
  · rw [logoutHandler_some ht]
  · intro uid hdec h0
    rw [logoutHandler_some ht]
    exact hasRefreshToken_logoutStore hdec h0
  · rw [logoutHandler_some ht, logoutHandler_some ht]
    simp [logoutStore_idem]

/-- Witness for C5 (amended): logging out a live session token succeeds and
the token is gone from the subject's list afterwards. -/
theorem logout_success_removal_idempotent_witness :
    (logoutHandler cfg0 [aliceSession] (some tokR1) 10).1 =
      ⟨200, "success", some "Logged out successfully", none, none, none⟩
    ∧ hasRefreshToken (logoutHandler cfg0 [aliceSession] (some tokR1) 10).2
        1 tokR1 = false :=
  ⟨(logout_success_removal_idempotent cfg0 [aliceSession] tokR1 10
      (by decide)).1,
   (logout_success_removal_idempotent cfg0 [aliceSession] tokR1 10
      (by decide)).2.1 1 (by decide) (by decide)⟩

/-- C1 counterexample: `tokR1` is cryptographically valid under the refresh
key and unexpired at time 10, and absent from subject 1's stored list, yet
the refresh endpoint answers exactly the same 401 `Invalid refresh token`
response as for a cryptographically invalid token — there is no distinct
Revoked outcome in the code. -/
theorem revoked_refresh_counterexample :
    jwtVerify tokR1 cfg0.refreshSecret 10 = .decoded 1
    ∧ hasRefreshToken [alice] 1 tokR1 = false
    ∧ refreshHandler cfg0 [alice] (some tokR1) 10 =
        refreshHandler cfg0 [alice] (some (.raw "garbage")) 10
    ∧ (refreshHandler cfg0 [alice] (some tokR1) 10).1 =
        errResp 401 "Invalid refresh token" := by
  decide

/-- A decoded-but-unstored refresh token is rejected with the 401
`Invalid refresh token` response, store unchanged. -/
theorem refreshHandler_revoked {cfg : Config} {users : List User}
    {t : TokenStr} {uid now : Nat}
    (hdec : jwtVerify t cfg.refreshSecret now = .decoded uid)
    (hmem : hasRefreshToken users uid t = false) :
    refreshHandler cfg users (some t) now =
      (errResp 401 "Invalid refresh token", users) := by
  cases t with
  | raw s => simp [jwtVerify] at hdec
  | jwt u2 k i e =>
      simp [refreshHandler, tokenFalsy, verifyRefreshToken, hdec, hmem]

/-- C1 (amended): a refresh token that decodes under the refresh key but is
not in the decoded subject's stored list is rejected with the same 401
`Invalid refresh token` response the handler gives a cryptographically
invalid token (not the expired response, not success), store unchanged; in
particular, after logout with such a token of a nonzero subject, refreshing
with the identical token yields exactly this response. -/
theorem revoked_refresh_rejected_as_invalid (cfg : Config)
    (users : List User) (t : TokenStr) (uid now now2 : Nat)
    (hdec : jwtVerify t cfg.refreshSecret now = .decoded uid)
    (hdec2 : jwtVerify t cfg.refreshSecret now2 = .decoded uid)
    (h0 : uid ≠ 0) :
    (hasRefreshToken users uid t = false →
      refreshHandler cfg users (some t) now =
        (errResp 401 "Invalid refresh token", users))
    ∧ refreshHandler cfg (logoutHandler cfg users (some t) now).2
        (some t) now2 =
      (errResp 401 "Invalid refresh token",
       (logoutHandler cfg users (some t) now).2) := by
  have ht : tokenFalsy (some t) = false := by
    cases t with
    | raw s => simp [jwtVerify] at hdec
    | jwt u2 k i e => rfl
  refine ⟨fun hmem => refreshHandler_revoked hdec hmem, ?_⟩
  rw [logoutHandler_some ht]
  exact refreshHandler_revoked hdec2 (hasRefreshToken_logoutStore hdec h0)

/-- Witness for C1 (amended): the revoked sample token is rejected as
invalid, and after logging out a live session token the identical token is
rejected as invalid as well. -/
theorem revoked_refresh_rejected_as_invalid_witness :
    refreshHandler cfg0 [alice] (some tokR1) 10 =
      (errResp 401 "Invalid refresh token", [alice])
    ∧ refreshHandler cfg0
        (logoutHandler cfg0 [aliceSession] (some tokR1) 10).2
        (some tokR1) 11 =
      (errResp 401 "Invalid refresh token",
       (logoutHandler cfg0 [aliceSession] (some tokR1) 10).2) :=
  ⟨(revoked_refresh_rejected_as_invalid cfg0 [alice] tokR1 1 10 11
      (by decide) (by decide) (by decide)).1 (by decide),
   (revoked_refresh_rejected_as_invalid cfg0 [aliceSession] tokR1 1 10 11
      (by decide) (by decide) (by decide)).2⟩

/-- C4 (amended): after a successful login at `t1`, the handler returned
the freshly signed access and refresh tokens; refreshing at a strictly
later time `t2` inside the refresh window succeeds, answers only a newly
signed access token distinct from the login-issued one, and leaves the
store exactly as login left it — the submitted refresh token stays stored
(no rotation) — so the same refresh token refreshed again at `t3` before
logout succeeds too.  The strictly-later hypothesis is necessary: at the
same timestamp the minted access token is identical, not distinct. -/
theorem refresh_no_rotation (cfg : Config)
    (bcompare : String → String → Bool) (users : List User)
    (cred pw : String) (u : User) (t1 t2 t3 : Nat)
    (hc : cred ≠ "") (hp : pw ≠ "")
    (hfound : findByCredentials users cred = some u)
    (hpw : bcompare pw u.password = true)
    (h12 : t1 < t2) (h2e : t2 < t1 + cfg.refreshTTL)
    (h3e : t3 < t1 + cfg.refreshTTL) :
    (loginHandler cfg bcompare users (some cred) (some pw) t1).1.statusCode
        = 200
    ∧ (loginHandler cfg bcompare users (some cred) (some pw) t1).1.accessToken
        = some (generateAccessToken cfg u.id t1)
    ∧ (loginHandler cfg bcompare users (some cred) (some pw) t1).1.refreshToken
        = some (signRefreshToken cfg u.id t1)
    ∧ refreshHandler cfg
        (loginHandler cfg bcompare users (some cred) (some pw) t1).2
        (some (signRefreshToken cfg u.id t1)) t2 =
      (⟨200, "success", none, some (generateAccessToken cfg u.id t2),
        none, none⟩,
       (loginHandler cfg bcompare users (some cred) (some pw) t1).2)
    ∧ generateAccessToken cfg u.id t2 ≠ generateAccessToken cfg u.id t1
    ∧ hasRefreshToken
        (loginHandler cfg bcompare users (some cred) (some pw) t1).2
        u.id (signRefreshToken cfg u.id t1) = true
    ∧ (refreshHandler cfg
        (loginHandler cfg bcompare users (some cred) (some pw) t1).2
        (some (signRefreshToken cfg u.id t1)) t3).1.statusCode = 200 := by
  have hlogin : loginHandler cfg bcompare users (some cred) (some pw) t1 =
      (⟨200, "success", some "Login successful",
        some (generateAccessToken cfg u.id t1),
        some (signRefreshToken cfg u.id t1),
        some ⟨u.id, u.username, u.email⟩⟩,
       addRefreshToken users u.id (signRefreshToken cfg u.id t1)) := by
    simp [loginHandler, strFalsy, hc, hp, hfound, hpw, generateRefreshToken]
  have hmem : hasRefreshToken
      (addRefreshToken users u.id (signRefreshToken cfg u.id t1))
      u.id (signRefreshToken cfg u.id t1) = true := by
    have hmem0 := findById_isSome_of_mem (findByCredentials_mem hfound)
    unfold hasRefreshToken addRefreshToken
    rw [findById_updateFirstById
      (fun v => { v with refreshTokens :=
        (if v.refreshTokens.length ≥ 5 then v.refreshTokens.tail
         else v.refreshTokens) ++ [signRefreshToken cfg u.id t1] })
      (fun _ => rfl)]
    cases hfid : findById users u.id with
    | none => rw [hfid] at hmem0; simp at hmem0
    | some w => simp [hfid]
  have hjv : ∀ tr : Nat, tr < t1 + cfg.refreshTTL →
      jwtVerify (signRefreshToken cfg u.id t1) cfg.refreshSecret tr =
        .decoded u.id := by
    intro tr htr
    simp [signRefreshToken, jwtVerify, Nat.not_le.mpr htr]
  have htf : tokenFalsy (some (signRefreshToken cfg u.id t1)) = false := rfl
  have hrefresh : ∀ tr : Nat, tr < t1 + cfg.refreshTTL →
      refreshHandler cfg
        (addRefreshToken users u.id (signRefreshToken cfg u.id t1))
        (some (signRefreshToken cfg u.id t1)) tr =
      (⟨200, "success", none, some (generateAccessToken cfg u.id tr),
        none, none⟩,
       addRefreshToken users u.id (signRefreshToken cfg u.id t1)) := by
    intro tr htr
    simp [refreshHandler, htf, verifyRefreshToken, hjv tr htr, hmem]
  rw [hlogin]
  refine ⟨rfl, rfl, rfl, hrefresh t2 h2e, ?_, hmem, by rw [hrefresh t3 h3e]⟩
  simp only [ne_eq, generateAccessToken, TokenStr.jwt.injEq]
  rintro ⟨-, -, h3, -⟩
  omega

/-- C4 counterexample: refreshing immediately after login within the same
clock second succeeds but returns the byte-identical access token the login
issued (same payload, key, iat and exp), not a distinct one: logging in
`alice` at time 0 and refreshing the issued refresh token at time 0 answers
200 with an access token equal to the login response's access token. -/
theorem refresh_same_timestamp_counterexample :
    (refreshHandler cfg0
        (loginHandler cfg0 (fun p d => p == d) [alice]
          (some "alice") (some "alice-digest") 0).2
        (some (signRefreshToken cfg0 1 0)) 0).1.statusCode = 200
    ∧ (refreshHandler cfg0
        (loginHandler cfg0 (fun p d => p == d) [alice]
          (some "alice") (some "alice-digest") 0).2
        (some (signRefreshToken cfg0 1 0)) 0).1.accessToken =
      (loginHandler cfg0 (fun p d => p == d) [alice]
        (some "alice") (some "alice-digest") 0).1.accessToken
    ∧ (loginHandler cfg0 (fun p d => p == d) [alice]
        (some "alice") (some "alice-digest") 0).1.accessToken =
      some (generateAccessToken cfg0 1 0) := by
  decide

/-- Witness for C4 (amended): logging in `alice` at time 0 and refreshing
the issued refresh token at the strictly later time 1 succeeds, with the
store as login left it. -/
theorem refresh_no_rotation_witness :
    refreshHandler cfg0
        (loginHandler cfg0 (fun p d => p == d) [alice]
          (some "alice") (some "alice-digest") 0).2
        (some (signRefreshToken cfg0 1 0)) 1 =
      (⟨200, "success", none, some (generateAccessToken cfg0 1 1),
        none, none⟩,
       (loginHandler cfg0 (fun p d => p == d) [alice]
          (some "alice") (some "alice-digest") 0).2) :=
  (refresh_no_rotation cfg0 (fun p d => p == d) [alice]
    "alice" "alice-digest" alice 0 1 2
    (by decide) (by decide) (by decide) (by decide)
    (by decide) (by decide) (by decide)).2.2.2.1

end SwaggerBackend
